import Mathlib

/-!
Shallow embedding of the host-side GPU kernel dispatch layer of
`ptypy/accelerate/cuda_pycuda/array_utils.py`, together with theorems
checking the natural-language specification against that code.

Device buffers are modelled by their shape and dtype; kernel wrappers
are modelled as functions from the host-visible arguments to either an
error (the Python exception raised before any device work) or a record
of the launch parameters the code would pass to the device kernel.
Python semantics used below: `int()` on a float truncates toward zero,
`//` is floor division, `%`-style numpy elementwise comparisons are
modelled pointwise.
-/

/-- Element type tags accepted by `map2ctype` in the source. -/
inductive Dtype
  | float32
  | float64
  | complex64
  | complex128
  | int32
  | int64
deriving DecidableEq, Repr

/-- A device-resident N-dimensional array: shape tuple plus dtype tag. -/
structure Buffer where
  shape : List ℕ
  dtype : Dtype
deriving DecidableEq, Repr

/-- Number of elements, `numpy.ndarray.size`. -/
def Buffer.size (b : Buffer) : ℕ := b.shape.prod

/-- Number of dimensions, `numpy.ndarray.ndim`. -/
def Buffer.ndim (b : Buffer) : ℕ := b.shape.length

/-- Python `int()` applied to a rational: truncation toward zero, i.e.
floor for nonnegative values and ceiling for negative ones. -/
def pyInt (q : ℚ) : ℤ := if 0 ≤ q then ⌊q⌋ else ⌈q⌉

/-- Fractional part returned by `numpy.modf`: `q` minus its integer part
(truncated toward zero), so it carries the sign of `q`. -/
def fracPart (q : ℚ) : ℚ := q - (pyInt q : ℚ)

/-! ## ArrayUtilsKernel.dot (array_utils.py lines 45-78) -/

/-- Where the first reduction phase writes its per-block partial sums:
the caller-visible output slot (`Ctmp = out` when `grid[0] == 1`) or the
instance's scratch buffer `self.Ctmp`. -/
inductive DotDest
  | outSlot
  | scratch
deriving DecidableEq, Repr

/-- Host-visible outcome of one `dot` call. -/
structure DotTrace where
  blockCount : ℕ
  phase1Dest : DotDest
  phase2Ran : Bool
  scratchSize : ℕ
deriving DecidableEq, Repr

/-- The source computes `grid[0] = (B.size + 1023) // 1024`. -/
def dotGrid (n : ℕ) : ℕ := (n + 1023) / 1024

/-- Model of `ArrayUtilsKernel.dot(A, B)`: the two dtype/size assertions, the
scratch-buffer growth rule (`self.Ctmp is None or self.Ctmp.size < grid[0]`),
the redirection of phase 1 into `out` when a single block suffices, and the
conditional second reduction phase.  `ctmp` is the size of `self.Ctmp`
before the call (`none` when not yet allocated). -/
def ArrayUtilsKernel.dot (ctmp : Option ℕ) (A B : Buffer) :
    Except String DotTrace :=
  if A.dtype ≠ B.dtype then .error "Input arrays must be of same data type"
  else if A.size ≠ B.size then .error "Input arrays must be of the same size"
  else
    let grid := dotGrid B.size
    let scratchSize :=
      match ctmp with
      | none => grid
      | some s => if s < grid then grid else s
    .ok { blockCount := grid
          phase1Dest := if grid = 1 then .outSlot else .scratch
          phase2Ran := decide (1 < grid)
          scratchSize := scratchSize }

/-- Scratch capacity before a call, with an unallocated buffer counting as 0. -/
def scratchCap (ctmp : Option ℕ) : ℕ := ctmp.getD 0

/-! ## TransposeKernel.transpose (array_utils.py lines 92-110) -/

/-- Model of `TransposeKernel.transpose(input, output)`: checks that `input` is 2D,
compares `input.shape[0]` with `output.shape[1]` and `input.shape[1]` with
`output.shape[0]` (reading `output.shape[1]` raises `IndexError` when
`output` has fewer than two dimensions), requires both dtypes to be exactly
int32, and otherwise launches the kernel with `(width, height)` =
`(input.shape[1], input.shape[0])`. -/
def TransposeKernel.transpose (input output : Buffer) :
    Except String (ℕ × ℕ) :=
  match input.shape with
  | [i0, i1] =>
    match output.shape with
    | o0 :: o1 :: _ =>
      if i0 ≠ o1 ∨ i1 ≠ o0 then .error "Input/Output must be of flipped shape"
      else if input.dtype ≠ Dtype.int32 ∨ output.dtype ≠ Dtype.int32 then
        .error "Only int types are supported at the moment"
      else .ok (i1, i0)
    | _ => .error "IndexError: tuple index out of range"
  | _ => .error "Only 2D tranpose is supported - reshape as desired"

/-! ## CropPadKernel.fill3D (array_utils.py lines 164-220) -/

/-- The source computes `Ao = max(offset, 0)` per axis. -/
def aStart (off : ℤ) : ℤ := max off 0

/-- The source computes `Bo = max(-offset, 0)` per axis. -/
def bStart (off : ℤ) : ℤ := max (-off) 0

/-- Per-axis entry of `lengths`: `min(off + Blim, Alim) - Ao`. -/
def overlapLen (off alim blim : ℤ) : ℤ := min (off + blim) alim - aStart off

/-- Per-axis entry of `lengths2`: `min(Alim - off, Blim) - Bo`. -/
def overlapLen2 (off alim blim : ℤ) : ℤ := min (alim - off) blim - bStart off

/-- Three-way zip used for the per-axis computations over
`(offset, Alim, Blim)` triples. -/
def zip3With (f : α → β → γ → δ) : List α → List β → List γ → List δ
  | x :: xs, y :: ys, z :: zs => f x y z :: zip3With f xs ys zs
  | _, _, _ => []

/-- Launch parameters `fill3D` passes to the device kernel. -/
structure Fill3DLaunch where
  ao : List ℤ
  bo : List ℤ
  lengths : List ℤ
  batch : ℕ
deriving DecidableEq, Repr

/-- Model of `CropPadKernel.fill3D(A, B, offset)`: the dimensionality checks, the
leading-shape match (`misfit[:-3]`), the start-bound overlap assertion
`(Bo < Blim).all() and (Ao < Alim).all()`, the `lengths == lengths2`
cross-check, and finally the kernel launch over the overlap box. -/
def CropPadKernel.fill3D (A B : Buffer) (offset : List ℤ) :
    Except String Fill3DLaunch :=
  if A.ndim < 3 ∨ B.ndim < 3 then
    .error "Input arrays must each be at least 3D"
  else if A.ndim ≠ B.ndim then
    .error "Input and Output must have the same number of dimensions."
  else if B.shape.take (B.ndim - 3) ≠ A.shape.take (A.ndim - 3) then
    .error "Input and Output must have the same shape everywhere but the last three axes."
  else
    let alim : List ℤ := (A.shape.drop (A.ndim - 3)).map Int.ofNat
    let blim : List ℤ := (B.shape.drop (B.ndim - 3)).map Int.ofNat
    let ao := offset.map aStart
    let bo := offset.map bStart
    if ¬ ((bo.zipWith (fun x y => decide (x < y)) blim).all id ∧
          (ao.zipWith (fun x y => decide (x < y)) alim).all id) then
      .error "At least one dimension lacks overlap"
    else
      let lengths := zip3With overlapLen offset alim blim
      let lengths2 := zip3With overlapLen2 offset alim blim
      if lengths ≠ lengths2 then
        .error "left and right lenghts are not matching"
      else
        .ok { ao := ao, bo := bo, lengths := lengths
              batch := (A.shape.take (A.ndim - 3)).prod }

/-- Model of `CropPadKernel.crop_pad_2d_simple(A, B)`: the batched-2D checks, the
reshape of 2D inputs to `(1, …)`, the centering offset
`[0, a1 // 2 - b1 // 2, a2 // 2 - b2 // 2]`, and the delegated `fill3D`
call.  Returns the offset passed to `fill3D` together with the outcome of
that call. -/
def CropPadKernel.crop_pad_2d_simple (A B : Buffer) :
    Except String (List ℤ × Except String Fill3DLaunch) :=
  if A.ndim < 2 then .error "Arrays must have more than 2 dimensions."
  else if A.ndim ≠ B.ndim then
    .error "Input and Output must have the same number of dimensions."
  else if (A.shape.take (A.ndim - 2)) ≠ (B.shape.take (B.ndim - 2)) then
    .error "Input and Output must have the same shape everywhere but the last two axes."
  else
    let A3 : Buffer := if A.ndim = 2 then ⟨1 :: A.shape, A.dtype⟩ else A
    let B3 : Buffer := if B.ndim = 2 then ⟨1 :: B.shape, B.dtype⟩ else B
    let a1 : ℤ := Int.ofNat (A.shape.getD (A.ndim - 2) 0)
    let a2 : ℤ := Int.ofNat (A.shape.getD (A.ndim - 1) 0)
    let b1 : ℤ := Int.ofNat (B.shape.getD (B.ndim - 2) 0)
    let b2 : ℤ := Int.ofNat (B.shape.getD (B.ndim - 1) 0)
    let offset : List ℤ := [0, a1 / 2 - b1 / 2, a2 / 2 - b2 / 2]
    .ok (offset, CropPadKernel.fill3D A3 B3 offset)

/-! ## GaussianSmoothingKernel.convolution (array_utils.py lines 342-479) -/

namespace GaussianSmoothingKernel

/-- The source sets `self.blockdim_x = 4`. -/
def blockdim_x : ℕ := 4

/-- The source sets `self.blockdim_y = 16`. -/
def blockdim_y : ℕ := 16

/-- The source sets `self.max_shared_per_block = 48 * 1024 // 2` (at least 2 blocks per SM). -/
def max_shared_per_block : ℤ := 48 * 1024 / 2

/-- The source sets `self.max_shared_per_block_complex = max_shared_per_block / 2 * 4`
(float division in the source, exact here). -/
def max_shared_per_block_complex : ℚ := (max_shared_per_block : ℚ) / 2 * 4

/-- The source sets `self.max_kernel_radius = int(max_shared_per_block_complex / blockdim_y)`. -/
def max_kernel_radius : ℤ := pyInt (max_shared_per_block_complex / (blockdim_y : ℚ))

/-- The radius `r = int(self.num_stdevs * std + 0.5)` from both convolution passes. -/
def convRadius (num_stdevs : ℕ) (std : ℚ) : ℤ :=
  pyInt ((num_stdevs : ℚ) * std + 1 / 2)

/-- Shared-memory footprint of a pass with radius `r`:
row pass `(bx + 2*r) * by * 8` with `(bx, by) = (4, 16)`, column pass
`(by + 2*r) * bx * 8` with `(bx, by) = (16, 4)` — the same value. -/
def convShared (r : ℤ) : ℤ := ((blockdim_x : ℤ) + 2 * r) * (blockdim_y : ℤ) * 8

/-- Symbolic contents of a device buffer during `convolution`: the original
`data` contents, the uninitialized `tmp` contents, or the result of applying
the row/column convolution kernel to some contents. -/
inductive Content
  | orig
  | tmpInit
  | rowConv (c : Content)
  | colConv (c : Content)
deriving DecidableEq, Repr

/-- Exceptions `convolution` can raise before a launch:
`ValueError("Size of Gaussian kernel too large")` and
`MemoryError("Cannot run kernel in shared memory")`. -/
inductive ConvError
  | kernelTooLarge
  | sharedMemExceeded
deriving DecidableEq, Repr

/-- Which convolution kernels were launched, in order. -/
inductive ConvLaunch
  | row
  | col
deriving DecidableEq, Repr

/-- Host-visible outcome of a `convolution` call: the launches that were
enqueued before returning or raising, the exception if one was raised, the
final contents of `data`, and whether the `data[:] = tmp[:]` copy-back ran. -/
structure ConvOut where
  launches : List ConvLaunch
  err : Option ConvError
  dataC : Content
  copied : Bool
deriving DecidableEq, Repr

/-- Model of `GaussianSmoothingKernel.convolution(data, (stdy, stdx))` for 2D/3D
inputs (the 1D case sets `stdx = 0.0` and reduces to the same flow).

The source starts with `input = data; output = tmp`.  The row pass (run
when `stdx > 0.1`) computes its radius, raises `ValueError` when the radius
exceeds `max_kernel_radius`, raises `MemoryError` when its shared-memory
footprint exceeds `max_shared_per_block`, otherwise launches
`convolution_row` writing `rowConv(data)` into `tmp` and swaps
`input, output`.  The column pass (run when `stdy > 0.1`) does the same
checks and launches `convolution_col` writing into its current `output`.
Finally: if neither ran, return with `data` untouched; if both ran the
result is already in `data`; if exactly one ran, `data[:] = tmp[:]`. -/
def convolution (num_stdevs : ℕ) (stdy stdx : ℚ) : ConvOut :=
  if stdx > 1 / 10 then
    let r := convRadius num_stdevs stdx
    if r > max_kernel_radius then
      ⟨[], some .kernelTooLarge, .orig, false⟩
    else if convShared r > max_shared_per_block then
      ⟨[], some .sharedMemExceeded, .orig, false⟩
    else
      -- convolution_row launched: tmp := rowConv(data); input, output = tmp, data
      if stdy > 1 / 10 then
        let r2 := convRadius num_stdevs stdy
        if r2 > max_kernel_radius then
          ⟨[.row], some .kernelTooLarge, .orig, false⟩
        else if convShared r2 > max_shared_per_block then
          ⟨[.row], some .sharedMemExceeded, .orig, false⟩
        else
          -- convolution_col launched: data := colConv(tmp); both passes ran
          ⟨[.row, .col], none, .colConv (.rowConv .orig), false⟩
      else
        -- only the row pass ran: data[:] = tmp[:]
        ⟨[.row], none, .rowConv .orig, true⟩
  else if stdy > 1 / 10 then
    let r2 := convRadius num_stdevs stdy
    if r2 > max_kernel_radius then
      ⟨[], some .kernelTooLarge, .orig, false⟩
    else if convShared r2 > max_shared_per_block then
      ⟨[], some .sharedMemExceeded, .orig, false⟩
    else
      -- convolution_col launched with input = data, output = tmp;
      -- only the column pass ran: data[:] = tmp[:]
      ⟨[.col], none, .colConv .orig, true⟩
  else
    ⟨[], none, .orig, false⟩

end GaussianSmoothingKernel

/-! ## MassCenterKernel.mass_center (array_utils.py lines 533-599) -/

/-- Model of `MassCenterKernel.mass_center(array)`: the float32 dtype gate,
`i = shape[0]`, `m = shape[1]` (an `IndexError` for fewer than two
dimensions), `n = shape[2] if ndim >= 3 else 1`, and the output vector
allocation `out = gpuarray.empty(3 if n > 1 else 2)`.  Returns the length
of the output vector. -/
def MassCenterKernel.mass_center (b : Buffer) : Except String ℕ :=
  if b.dtype ≠ Dtype.float32 then
    .error "mass_center is only implemented for float32"
  else
    match b.shape with
    | [_, _] => .ok 2
    | _ :: _ :: n :: _ => .ok (if 1 < n then 3 else 2)
    | _ => .error "IndexError: tuple index out of range"

/-! ## InterpolatedShiftKernel.interpolate_shift (array_utils.py lines 654-697) -/

/-- Which path `interpolate_shift` takes: alias the input buffer
(`out = array`, zero-copy), launch the integer-shift kernel, or launch the
bilinear interpolation kernel. -/
inductive ShiftPath
  | aliasInput
  | integerShift
  | bilinear
deriving DecidableEq, Repr

/-- Model of `InterpolatedShiftKernel.interpolate_shift(array, shift)`: the length-2
shift check, the complex64 dtype gate, the 2D/3D rank gate, then dispatch on
`np.modf` of the two offsets — the exact path when both fractional parts are
within `1e-6` of zero (aliasing the input when both integer parts are zero,
else the integer-shift kernel), the bilinear kernel otherwise. -/
def InterpolatedShiftKernel.interpolate_shift (b : Buffer) (shift : List ℚ) :
    Except String ShiftPath :=
  match shift with
  | [offsetRow, offsetCol] =>
    if b.dtype ≠ Dtype.complex64 then
      .error "Only complex single precision supported"
    else if b.ndim = 3 ∨ b.ndim = 2 then
      if |fracPart offsetRow| < 1 / 1000000 ∧ |fracPart offsetCol| < 1 / 1000000 then
        if pyInt offsetRow = 0 ∧ pyInt offsetCol = 0 then .ok .aliasInput
        else .ok .integerShift
      else .ok .bilinear
    else .error "Only 2- or 3-dimensional arrays supported"
  | _ => .error "Shift only applied to 2D array."

/-! ## Helper lemmas -/

/-- On nonnegative rationals Python `int()` agrees with the floor. -/
lemma pyInt_eq_floor {q : ℚ} (h : 0 ≤ q) : pyInt q = ⌊q⌋ := if_pos h

/-- The two per-axis overlap lengths of `fill3D` coincide unconditionally. -/
lemma overlapLen_eq_overlapLen2 (o a b : ℤ) :
    overlapLen o a b = overlapLen2 o a b := by
  unfold overlapLen overlapLen2 aStart bStart
  omega

/-- Congruence for the three-way zip. -/
lemma zip3With_congr {α β γ δ : Type*} {f g : α → β → γ → δ}
    (h : ∀ x y z, f x y z = g x y z) :
    ∀ (as : List α) (bs : List β) (cs : List γ),
      zip3With f as bs cs = zip3With g as bs cs
  | x :: xs, y :: ys, z :: zs => by
    simp only [zip3With, h, zip3With_congr h xs ys zs]
  | [], _, _ => by cases ‹List β› <;> cases ‹List γ› <;> rfl
  | _ :: _, [], _ => by cases ‹List γ› <;> rfl
  | _ :: _, _ :: _, [] => rfl

/-- If an axis has zero or negative overlap, that axis fails the
start-bound assertion `Bo < Blim and Ao < Alim`. -/
lemma no_overlap_fails_start_check {o a b : ℤ} (h : overlapLen o a b ≤ 0) :
    ¬(bStart o < b ∧ aStart o < a) := by
  unfold overlapLen aStart bStart at *
  omega

/-- When a pass runs (`std > 0.1`) its radius argument is nonnegative, so
Python truncation agrees with the floor. -/
lemma convRadius_eq_floor (ns : ℕ) {s : ℚ} (hs : s > 1 / 10) :
    GaussianSmoothingKernel.convRadius ns s = ⌊(ns : ℚ) * s + 1 / 2⌋ := by
  have h0 : (0 : ℚ) ≤ (ns : ℚ) * s :=
    mul_nonneg (Nat.cast_nonneg ns) (le_of_lt (lt_trans (by norm_num) hs))
  exact pyInt_eq_floor (by linarith)

/-- Characterization of `convolution` runs that raise no exception: the
checks of every active pass passed, and the outcome is determined by which
of the two passes were active. -/
lemma convolution_ok_cases (ns : ℕ) (stdy stdx : ℚ)
    (h : (GaussianSmoothingKernel.convolution ns stdy stdx).err = none) :
    GaussianSmoothingKernel.convolution ns stdy stdx =
      if stdx > 1 / 10 then
        if stdy > 1 / 10 then
          ⟨[.row, .col], none, .colConv (.rowConv .orig), false⟩
        else ⟨[.row], none, .rowConv .orig, true⟩
      else
        if stdy > 1 / 10 then ⟨[.col], none, .colConv .orig, true⟩
        else ⟨[], none, .orig, false⟩ := by
  unfold GaussianSmoothingKernel.convolution at h ⊢
  dsimp only at h ⊢
  split_ifs at h ⊢ <;> simp_all

/-! ## Claims -/

/-- C10: In `fill3D`, for every signed offset and positive trailing extents
passing the start-bound checks, the two overlap-length computations
`min(offset + B_extent, A_extent) - A_start` and
`min(A_extent - offset, B_extent) - B_start` are equal, so the
"left and right lengths are not matching" consistency branch of `fill3D`
is unreachable. -/
theorem fill3D_lengths_always_consistent (o a b : ℤ)
    (hpa : 0 < a) (hpb : 0 < b) (hA : aStart o < a) (hB : bStart o < b) :
    overlapLen o a b = overlapLen2 o a b ∧
    ∀ (A B : Buffer) (offset : List ℤ),
      CropPadKernel.fill3D A B offset ≠
        Except.error "left and right lenghts are not matching" := by
  refine ⟨overlapLen_eq_overlapLen2 o a b, ?_⟩
  intro A B offset
  unfold CropPadKernel.fill3D
  simp only [zip3With_congr overlapLen_eq_overlapLen2 offset]
  split_ifs <;> simp_all

/-- Witness for C10 at `o = -1`, `a = 4`, `b = 3`. -/
theorem fill3D_lengths_always_consistent_witness :
    aStart (-1) < 4 ∧ bStart (-1) < 3 ∧
    (overlapLen (-1) 4 3 = overlapLen2 (-1) 4 3 ∧
      ∀ (A B : Buffer) (offset : List ℤ),
        CropPadKernel.fill3D A B offset ≠
          Except.error "left and right lenghts are not matching") :=
  ⟨by norm_num [aStart], by norm_num [bStart],
    fill3D_lengths_always_consistent (-1) 4 3 (by norm_num) (by norm_num)
      (by norm_num [aStart]) (by norm_num [bStart])⟩

/-- C7: for batched-3D inputs with matching leading dimensions, any signed
3-component offset giving zero or negative overlap on one of the three
trailing axes makes `fill3D` fail with the no-overlap error before any
launch; in particular an offset beyond both extents on one axis never
silently succeeds. -/
theorem fill3D_no_overlap_error (pre : List ℕ) (a1 a2 a3 b1 b2 b3 : ℕ)
    (o1 o2 o3 : ℤ) (dA dB : Dtype)
    (hover : overlapLen o1 a1 b1 ≤ 0 ∨ overlapLen o2 a2 b2 ≤ 0 ∨
      overlapLen o3 a3 b3 ≤ 0) :
    CropPadKernel.fill3D ⟨pre ++ [a1, a2, a3], dA⟩ ⟨pre ++ [b1, b2, b3], dB⟩
      [o1, o2, o3] = Except.error "At least one dimension lacks overlap" := by
  unfold CropPadKernel.fill3D
  rw [if_neg, if_neg, if_neg, if_pos]
  · show ¬ _
    have htake : ∀ (x y z : ℕ),
        (pre ++ [x, y, z]).drop ((pre ++ [x, y, z]).length - 3) = [x, y, z] := by
      intro x y z
      have : (pre ++ [x, y, z]).length - 3 = pre.length := by simp
      rw [this, List.drop_left]
    simp only [Buffer.ndim, htake, List.map_cons, List.map_nil,
      List.zipWith, List.all_cons, List.all_nil, Bool.and_eq_true,
      decide_eq_true_eq, id_eq, Int.ofNat_eq_natCast]
    rintro ⟨⟨hb1, hb2, hb3, -⟩, ha1, ha2, ha3, -⟩
    rcases hover with h | h | h
    · exact no_overlap_fails_start_check h ⟨hb1, ha1⟩
    · exact no_overlap_fails_start_check h ⟨hb2, ha2⟩
    · exact no_overlap_fails_start_check h ⟨hb3, ha3⟩
  · simp [Buffer.ndim]
  · simp [Buffer.ndim]
  · simp [Buffer.ndim]

/-- C3: `dot(A, B)` on equal-dtype, equal-size buffers partitions the
flattened input into 1024-element blocks (the block count is the least
number of 1024-blocks covering the input), keeps the scratch buffer at
least as large as the block count, writes the single partial sum directly
into the output slot and skips phase 2 when one block suffices
(`size <= 1024`), and runs the second single-block reduction phase when
more than one block is used. -/
theorem dot_two_phase_reduction (ctmp : Option ℕ) (A B : Buffer)
    (hd : A.dtype = B.dtype) (hs : A.size = B.size) (hpos : 0 < B.size) :
    ∃ t : DotTrace, ArrayUtilsKernel.dot ctmp A B = .ok t ∧
      B.size ≤ 1024 * t.blockCount ∧ 1024 * (t.blockCount - 1) < B.size ∧
      t.blockCount ≤ t.scratchSize ∧
      (B.size ≤ 1024 → t.phase1Dest = .outSlot ∧ t.phase2Ran = false) ∧
      (1024 < B.size → t.phase1Dest = .scratch ∧ t.phase2Ran = true) := by
  unfold ArrayUtilsKernel.dot
  rw [if_neg (by simp [hd]), if_neg (by simp [hs])]
  refine ⟨_, rfl, ?_, ?_, ?_, ?_, ?_⟩ <;>
    simp only [dotGrid, decide_eq_false_iff_not, not_lt, decide_eq_true_eq]
  · omega
  · omega
  · cases ctmp with
    | none => dsimp only; omega
    | some s => dsimp only; split_ifs <;> omega
  · intro h
    rw [if_pos (by omega : (B.size + 1023) / 1024 = 1)]
    exact ⟨rfl, by omega⟩
  · intro h
    rw [if_neg (by omega : ¬ (B.size + 1023) / 1024 = 1)]
    exact ⟨rfl, by omega⟩

/-- Witness for C3 at `A = B =` a `(2,8,8)` complex64 buffer (one block)
with no scratch allocated. -/
theorem dot_two_phase_reduction_witness :
    Buffer.dtype ⟨[2, 8, 8], Dtype.complex64⟩ =
        Buffer.dtype ⟨[2, 8, 8], Dtype.complex64⟩ ∧
    0 < Buffer.size ⟨[2, 8, 8], Dtype.complex64⟩ ∧
    ∃ t : DotTrace,
      ArrayUtilsKernel.dot none ⟨[2, 8, 8], Dtype.complex64⟩
          ⟨[2, 8, 8], Dtype.complex64⟩ = .ok t ∧
      Buffer.size ⟨[2, 8, 8], Dtype.complex64⟩ ≤ 1024 * t.blockCount ∧
      1024 * (t.blockCount - 1) < Buffer.size ⟨[2, 8, 8], Dtype.complex64⟩ ∧
      t.blockCount ≤ t.scratchSize ∧
      (Buffer.size ⟨[2, 8, 8], Dtype.complex64⟩ ≤ 1024 →
        t.phase1Dest = .outSlot ∧ t.phase2Ran = false) ∧
      (1024 < Buffer.size ⟨[2, 8, 8], Dtype.complex64⟩ →
        t.phase1Dest = .scratch ∧ t.phase2Ran = true) :=
  ⟨rfl, by norm_num [Buffer.size],
    dot_two_phase_reduction none _ _ rfl rfl (by norm_num [Buffer.size])⟩

/-- C9: the reduction scratch buffer is monotonically non-shrinking: after
a `dot` call it is at least as large as the required block count and at
least as large as it was before the call, and it is left unchanged (reused)
whenever the required block count does not exceed the current capacity. -/
theorem dot_scratch_monotone (ctmp : Option ℕ) (A B : Buffer) (t : DotTrace)
    (h : ArrayUtilsKernel.dot ctmp A B = .ok t) :
    dotGrid B.size ≤ t.scratchSize ∧ scratchCap ctmp ≤ t.scratchSize ∧
    (dotGrid B.size ≤ scratchCap ctmp → t.scratchSize = scratchCap ctmp) := by
  unfold ArrayUtilsKernel.dot at h
  split_ifs at h
  cases ctmp with
  | none =>
    obtain rfl : t = _ := (Except.ok.injEq _ _).mp h.symm
    simp [scratchCap]
  | some s =>
    obtain rfl : t = _ := (Except.ok.injEq _ _).mp h.symm
    simp only [scratchCap, Option.getD_some]
    split_ifs <;> omega

/-- Witness for C9: a second call whose required block count (3) fits the
existing capacity (5) reuses the scratch buffer unchanged. -/
theorem dot_scratch_monotone_witness :
    ArrayUtilsKernel.dot (some 5) ⟨[3000], Dtype.float32⟩
        ⟨[3000], Dtype.float32⟩ = .ok ⟨3, .scratch, true, 5⟩ ∧
    (dotGrid (Buffer.size ⟨[3000], Dtype.float32⟩) ≤ 5 ∧
      scratchCap (some 5) ≤ 5 ∧
      (dotGrid (Buffer.size ⟨[3000], Dtype.float32⟩) ≤ scratchCap (some 5) →
        (5 : ℕ) = scratchCap (some 5))) := by
  have h : ArrayUtilsKernel.dot (some 5) ⟨[3000], Dtype.float32⟩
      ⟨[3000], Dtype.float32⟩ = .ok ⟨3, .scratch, true, 5⟩ := by
    unfold ArrayUtilsKernel.dot
    norm_num [Buffer.size, dotGrid]
  exact ⟨h, dot_scratch_monotone (some 5) _ _ _ h⟩

/-- C8 counterexample: `transpose` launches the kernel for a 3-dimensional
int32 output whose first two extents are the reverse of the input's shape,
although the claim requires both arrays to be 2-dimensional for a launch. -/
theorem transpose_3d_output_launches :
    TransposeKernel.transpose ⟨[2, 3], Dtype.int32⟩ ⟨[3, 2, 5], Dtype.int32⟩ =
        .ok (3, 2) ∧
    Buffer.ndim ⟨[3, 2, 5], Dtype.int32⟩ ≠ 2 := by
  constructor
  · unfold TransposeKernel.transpose
    norm_num
  · simp [Buffer.ndim]

/-- C8 (amended): `transpose(input, output)` launches the kernel — with
`(width, height) = (input.shape[1], input.shape[0])` — exactly when the
input is 2-dimensional, the output has at least two dimensions whose first
two extents are the reverse of the input's shape (trailing output
dimensions are not validated), and both dtypes are exactly int32; in every
other case it raises a shape/type error. -/
theorem transpose_launch_iff (input output : Buffer) :
    (∃ wh : ℕ × ℕ, TransposeKernel.transpose input output = .ok wh) ↔
      ∃ i0 i1 rest, input.shape = [i0, i1] ∧
        output.shape = i1 :: i0 :: rest ∧
        input.dtype = Dtype.int32 ∧ output.dtype = Dtype.int32 := by
  obtain ⟨is, idt⟩ := input
  obtain ⟨os, odt⟩ := output
  unfold TransposeKernel.transpose
  dsimp only
  constructor
  · rintro ⟨wh, h⟩
    match is, os with
    | [i0, i1], o0 :: o1 :: rest =>
      dsimp only at h
      split_ifs at h with h1 h2
      push_neg at h1 h2
      exact ⟨i0, i1, rest, rfl, by simp [h1.1, h1.2], h2.1, h2.2⟩
    | [], _ => exact absurd h (by simp)
    | [_], _ => exact absurd h (by simp)
    | _ :: _ :: _ :: _, _ => exact absurd h (by simp)
    | [_, _], [] => exact absurd h (by simp)
    | [_, _], [_] => exact absurd h (by simp)
  · rintro ⟨i0, i1, rest, rfl, rfl, rfl, rfl⟩
    exact ⟨(i1, i0), by simp⟩

/-- C1 counterexample: at the default `num_stdevs = 4` and `std = 1`
(a pass that runs, `1 > 0.1`) the code computes radius
`int(4 * 1 + 0.5) = 4`, not `ceil(4 * 1 + 0.5) = 5` as claimed. -/
theorem convolution_radius_not_ceil :
    (1 : ℚ) > 1 / 10 ∧
    GaussianSmoothingKernel.convRadius 4 1 = 4 ∧
    ⌈(4 : ℚ) * 1 + 1 / 2⌉ = 5 ∧
    GaussianSmoothingKernel.convRadius 4 1 ≠ ⌈(4 : ℚ) * 1 + 1 / 2⌉ := by
  have h4 : GaussianSmoothingKernel.convRadius 4 1 = 4 := by
    rw [convRadius_eq_floor 4 (by norm_num)]
    norm_num
  have h5 : ⌈(4 : ℚ) * 1 + 1 / 2⌉ = 5 := by
    have hf : ⌊(-((4 : ℚ) * 1 + 1 / 2))⌋ = -5 := by norm_num
    have hc : ⌊(-((4 : ℚ) * 1 + 1 / 2))⌋ = -⌈(4 : ℚ) * 1 + 1 / 2⌉ :=
      Int.floor_neg
    omega
  exact ⟨by norm_num, h4, h5, by omega⟩

/-- C1 (amended): for each convolution pass whose standard deviation
exceeds the 0.1 threshold, the kernel radius is
`floor(num_stdevs * std + 0.5)` (Python `int()` truncation), and whenever
that radius exceeds the instance's shared-memory-derived maximum kernel
radius, the call raises a resource error with that pass never launched:
an oversized row pass fails before any launch at all, and an oversized
column pass fails with the column kernel never launched. -/
theorem convolution_radius_gate (ns : ℕ) (stdy stdx : ℚ) :
    (stdx > 1 / 10 →
      GaussianSmoothingKernel.convRadius ns stdx = ⌊(ns : ℚ) * stdx + 1 / 2⌋ ∧
      (GaussianSmoothingKernel.convRadius ns stdx >
          GaussianSmoothingKernel.max_kernel_radius →
        (GaussianSmoothingKernel.convolution ns stdy stdx).err =
            some .kernelTooLarge ∧
        (GaussianSmoothingKernel.convolution ns stdy stdx).launches = [])) ∧
    (stdy > 1 / 10 →
      GaussianSmoothingKernel.convRadius ns stdy = ⌊(ns : ℚ) * stdy + 1 / 2⌋ ∧
      (GaussianSmoothingKernel.convRadius ns stdy >
          GaussianSmoothingKernel.max_kernel_radius →
        ((GaussianSmoothingKernel.convolution ns stdy stdx).err =
            some .kernelTooLarge ∨
          (GaussianSmoothingKernel.convolution ns stdy stdx).err =
            some .sharedMemExceeded) ∧
        GaussianSmoothingKernel.ConvLaunch.col ∉
          (GaussianSmoothingKernel.convolution ns stdy stdx).launches)) := by
  constructor
  · intro hx
    refine ⟨convRadius_eq_floor ns hx, fun hr => ?_⟩
    unfold GaussianSmoothingKernel.convolution
    rw [if_pos hx]
    dsimp only
    rw [if_pos hr]
    exact ⟨rfl, rfl⟩
  · intro hy
    refine ⟨convRadius_eq_floor ns hy, fun hr => ?_⟩
    unfold GaussianSmoothingKernel.convolution
    dsimp only
    split_ifs <;>
      first
        | exact absurd hr (by assumption)
        | exact absurd hy (by assumption)
        | exact ⟨Or.inl rfl, by simp⟩
        | exact ⟨Or.inr rfl, by simp⟩

/-- Witness for C1: `num_stdevs = 4`, `stdx = 1000` gives radius
`4000 > 3072 = max_kernel_radius`, so the call fails before any launch. -/
theorem convolution_radius_gate_witness :
    ((1000 : ℚ) > 1 / 10) ∧
    GaussianSmoothingKernel.convRadius 4 1000 >
      GaussianSmoothingKernel.max_kernel_radius ∧
    ((GaussianSmoothingKernel.convolution 4 0 1000).err =
        some .kernelTooLarge ∧
      (GaussianSmoothingKernel.convolution 4 0 1000).launches = []) := by
  have hs : (1000 : ℚ) > 1 / 10 := by norm_num
  have hr : GaussianSmoothingKernel.convRadius 4 1000 >
      GaussianSmoothingKernel.max_kernel_radius := by
    rw [convRadius_eq_floor 4 hs]
    norm_num [GaussianSmoothingKernel.max_kernel_radius,
      GaussianSmoothingKernel.max_shared_per_block_complex,
      GaussianSmoothingKernel.max_shared_per_block,
      GaussianSmoothingKernel.blockdim_y, pyInt]
  exact ⟨hs, hr, ((convolution_radius_gate 4 0 1000).1 hs).2 hr⟩

/-- C2: whenever `convolution(data, (stdy, stdx))` raises no exception, the
final smoothed result is in `data`: both passes active leaves the
row-then-column result in `data` with no copy-back; neither pass active
leaves `data` bit-for-bit unchanged (so `convolution(data, (0.0, 0.0))` is
a no-op); exactly one pass active leaves the result in `tmp` and copies it
back into `data` before returning. -/
theorem convolution_result_in_data (ns : ℕ) (stdy stdx : ℚ)
    (h : (GaussianSmoothingKernel.convolution ns stdy stdx).err = none) :
    (stdx ≤ 1 / 10 ∧ stdy ≤ 1 / 10 →
      (GaussianSmoothingKernel.convolution ns stdy stdx).dataC = .orig ∧
      (GaussianSmoothingKernel.convolution ns stdy stdx).copied = false) ∧
    (stdx > 1 / 10 ∧ stdy > 1 / 10 →
      (GaussianSmoothingKernel.convolution ns stdy stdx).dataC =
        .colConv (.rowConv .orig) ∧
      (GaussianSmoothingKernel.convolution ns stdy stdx).copied = false) ∧
    (stdx > 1 / 10 ∧ stdy ≤ 1 / 10 →
      (GaussianSmoothingKernel.convolution ns stdy stdx).dataC =
        .rowConv .orig ∧
      (GaussianSmoothingKernel.convolution ns stdy stdx).copied = true) ∧
    (stdx ≤ 1 / 10 ∧ stdy > 1 / 10 →
      (GaussianSmoothingKernel.convolution ns stdy stdx).dataC =
        .colConv .orig ∧
      (GaussianSmoothingKernel.convolution ns stdy stdx).copied = true) := by
  have hc := convolution_ok_cases ns stdy stdx h
  refine ⟨?_, ?_, ?_, ?_⟩ <;> rintro ⟨c1, c2⟩ <;> rw [hc]
  · rw [if_neg (not_lt.mpr c1), if_neg (not_lt.mpr c2)]
    exact ⟨rfl, rfl⟩
  · rw [if_pos c1, if_pos c2]
    exact ⟨rfl, rfl⟩
  · rw [if_pos c1, if_neg (not_lt.mpr c2)]
    exact ⟨rfl, rfl⟩
  · rw [if_neg (not_lt.mpr c1), if_pos c2]
    exact ⟨rfl, rfl⟩

/-- Witness for C2: `(stdy, stdx) = (1, 1)` runs both passes and leaves the
row-then-column result in `data` with no copy-back, and
`(stdy, stdx) = (0, 0)` leaves `data` unchanged. -/
theorem convolution_result_in_data_witness :
    (GaussianSmoothingKernel.convolution 4 1 1).err = none ∧
    ((GaussianSmoothingKernel.convolution 4 1 1).dataC =
        .colConv (.rowConv .orig) ∧
      (GaussianSmoothingKernel.convolution 4 1 1).copied = false) ∧
    (GaussianSmoothingKernel.convolution 4 0 0).err = none ∧
    ((GaussianSmoothingKernel.convolution 4 0 0).dataC = .orig ∧
      (GaussianSmoothingKernel.convolution 4 0 0).copied = false) := by
  have hrad : GaussianSmoothingKernel.convRadius 4 1 = 4 := by
    rw [convRadius_eq_floor 4 (by norm_num)]
    norm_num
  have hY : (1 : ℚ) > 1 / 10 := by norm_num
  have hRad : ¬ (4 : ℤ) > GaussianSmoothingKernel.max_kernel_radius := by
    norm_num [GaussianSmoothingKernel.max_kernel_radius,
      GaussianSmoothingKernel.max_shared_per_block_complex,
      GaussianSmoothingKernel.max_shared_per_block,
      GaussianSmoothingKernel.blockdim_y, pyInt]
  have hSh : ¬ GaussianSmoothingKernel.convShared 4 >
      GaussianSmoothingKernel.max_shared_per_block := by
    norm_num [GaussianSmoothingKernel.convShared,
      GaussianSmoothingKernel.max_shared_per_block,
      GaussianSmoothingKernel.blockdim_x, GaussianSmoothingKernel.blockdim_y]
  have h1 : (GaussianSmoothingKernel.convolution 4 1 1).err = none := by
    unfold GaussianSmoothingKernel.convolution
    rw [if_pos hY]
    dsimp only
    rw [hrad, if_neg hRad, if_neg hSh, if_pos hY, if_neg hRad, if_neg hSh]
  have h0 : (GaussianSmoothingKernel.convolution 4 0 0).err = none := by
    unfold GaussianSmoothingKernel.convolution
    norm_num
  exact ⟨h1, (convolution_result_in_data 4 1 1 h1).2.1 ⟨by norm_num, by norm_num⟩,
    h0, (convolution_result_in_data 4 0 0 h0).1 ⟨by norm_num, by norm_num⟩⟩

/-- C4 counterexample: for `A` of shape `(4,4)` and `B` of shape `(3,3)`
the offset `crop_pad_2d_simple` passes to `fill3D` is `[0, 1, 1]`, while
the claimed formula `(A_extent - B_extent) // 2` gives 0 on both trailing
axes. -/
theorem crop_pad_offset_not_centered_difference :
    (CropPadKernel.crop_pad_2d_simple ⟨[4, 4], Dtype.float32⟩
        ⟨[3, 3], Dtype.float32⟩).map Prod.fst = .ok [0, 1, 1] ∧
    ([0, 1, 1] : List ℤ) ≠ [0, ((4 : ℤ) - 3) / 2, ((4 : ℤ) - 3) / 2] := by
  constructor
  · unfold CropPadKernel.crop_pad_2d_simple
    norm_num [Buffer.ndim, Except.map]
  · norm_num

/-- C4 (amended): for every pair of arrays accepted by
`crop_pad_2d_simple(A, B)` the offset passed to `fill3D` is 0 on the batch
axis and `A_extent // 2 - B_extent // 2` on each of the two trailing axes
(which centers `B` in `A` up to the one-pixel bias of separate floor
halving). -/
theorem crop_pad_centering_offset (pre : List ℕ) (a1 a2 b1 b2 : ℕ)
    (dA dB : Dtype) (off : List ℤ) (res : Except String Fill3DLaunch)
    (h : CropPadKernel.crop_pad_2d_simple ⟨pre ++ [a1, a2], dA⟩
        ⟨pre ++ [b1, b2], dB⟩ = .ok (off, res)) :
    off = [0, ((a1 / 2 : ℕ) : ℤ) - ((b1 / 2 : ℕ) : ℤ),
      ((a2 / 2 : ℕ) : ℤ) - ((b2 / 2 : ℕ) : ℤ)] := by
  have hget : ∀ (l : List ℕ) (x y : ℕ),
      (l ++ [x, y]).getD l.length 0 = x ∧
        (l ++ [x, y]).getD (l.length + 1) 0 = y := by
    intro l x y
    constructor
    · rw [List.getD_eq_getElem?_getD, List.getElem?_append_right le_rfl]
      simp
    · rw [List.getD_eq_getElem?_getD, List.getElem?_append_right (by omega)]
      simp
  unfold CropPadKernel.crop_pad_2d_simple at h
  rw [if_neg (by simp [Buffer.ndim]), if_neg (by simp [Buffer.ndim]),
    if_neg (by simp [Buffer.ndim])] at h
  simp only [Buffer.ndim, List.length_append, List.length_cons,
    List.length_nil, Nat.add_sub_cancel, Except.ok.injEq, Prod.mk.injEq] at h
  rw [show pre.length + (0 + 1 + 1) - 1 = pre.length + 1 from by omega,
    (hget pre a1 a2).1, (hget pre a1 a2).2,
    (hget pre b1 b2).1, (hget pre b1 b2).2] at h
  rw [← h.1]
  simp [Int.ofNat_eq_natCast, Int.natCast_div]

/-- Witness for C4 at `A` of shape `(1, 5, 8)`, `B` of shape `(1, 2, 3)`:
the offset is `[0, 5//2 - 2//2, 8//2 - 3//2] = [0, 1, 3]`. -/
theorem crop_pad_centering_offset_witness :
    (CropPadKernel.crop_pad_2d_simple ⟨[1, 5, 8], Dtype.float32⟩
        ⟨[1, 2, 3], Dtype.float32⟩).map Prod.fst = .ok [0, 1, 3] ∧
    ([0, 1, 3] : List ℤ) = [0, ((5 / 2 : ℕ) : ℤ) - ((2 / 2 : ℕ) : ℤ),
      ((8 / 2 : ℕ) : ℤ) - ((3 / 2 : ℕ) : ℤ)] := by
  have h : CropPadKernel.crop_pad_2d_simple ⟨[1, 5, 8], Dtype.float32⟩
      ⟨[1, 2, 3], Dtype.float32⟩ =
      .ok ([0, 1, 3],
        CropPadKernel.fill3D ⟨[1, 5, 8], Dtype.float32⟩
          ⟨[1, 2, 3], Dtype.float32⟩ [0, 1, 3]) := by
    unfold CropPadKernel.crop_pad_2d_simple
    norm_num [Buffer.ndim]
  refine ⟨by rw [h]; rfl, ?_⟩
  have := crop_pad_centering_offset [1] 5 8 2 3 Dtype.float32 Dtype.float32
    [0, 1, 3] _ h
  rw [this]

/-- C5 counterexample: a 3-dimensional float32 input of shape `(2,2,1)` is
accepted by `mass_center`, but the output vector has length 2, not the
input's rank 3. -/
theorem mass_center_3d_len_two :
    MassCenterKernel.mass_center ⟨[2, 2, 1], Dtype.float32⟩ = .ok 2 ∧
    Buffer.ndim ⟨[2, 2, 1], Dtype.float32⟩ = 3 := by
  constructor
  · unfold MassCenterKernel.mass_center
    norm_num
  · simp [Buffer.ndim]

/-- C5 (amended): for every float32 input accepted by `mass_center`, the
output vector has length 2 when the input is 2-dimensional, and for
3-dimensional (or higher) input it has length 3 exactly when the third
extent exceeds 1, length 2 otherwise. -/
theorem mass_center_out_length (b : Buffer) (len : ℕ)
    (h : MassCenterKernel.mass_center b = .ok len) :
    (∀ i m, b.shape = [i, m] → len = 2) ∧
    (∀ i m n rest, b.shape = i :: m :: n :: rest →
      len = if 1 < n then 3 else 2) := by
  obtain ⟨s, d⟩ := b
  unfold MassCenterKernel.mass_center at h
  split_ifs at h
  constructor
  · rintro i m rfl
    simp only [Except.ok.injEq] at h
    omega
  · rintro i m n rest rfl
    simp only [Except.ok.injEq] at h
    split_ifs at h <;> split_ifs <;> omega

/-- Witness for C5 at a `(2,8,8)` float32 input: output length 3. -/
theorem mass_center_out_length_witness :
    MassCenterKernel.mass_center ⟨[2, 8, 8], Dtype.float32⟩ = .ok 3 ∧
    (3 : ℕ) = if (1 : ℕ) < 8 then 3 else 2 := by
  have h : MassCenterKernel.mass_center ⟨[2, 8, 8], Dtype.float32⟩ = .ok 3 := by
    unfold MassCenterKernel.mass_center
    norm_num
  exact ⟨h, (mass_center_out_length _ 3 h).2 2 8 8 [] rfl⟩

/-- C6: for every accepted array and 2-component shift, when both
fractional parts of the offsets are within `1e-6` of zero the exact path is
taken — the input buffer is aliased (returned unchanged, so
`shift(array, (0.0, 0.0))` returns data equal to the input) when both
integer offsets are zero, and the integer-shift kernel is launched
otherwise; when either fractional part is at least `1e-6` in magnitude,
the bilinear interpolation kernel is launched. -/
theorem interpolate_shift_dispatch (b : Buffer) (r c : ℚ) (p : ShiftPath)
    (h : InterpolatedShiftKernel.interpolate_shift b [r, c] = .ok p) :
    (|fracPart r| < 1 / 1000000 ∧ |fracPart c| < 1 / 1000000 →
      ((pyInt r = 0 ∧ pyInt c = 0) → p = .aliasInput) ∧
      (¬(pyInt r = 0 ∧ pyInt c = 0) → p = .integerShift)) ∧
    (¬(|fracPart r| < 1 / 1000000 ∧ |fracPart c| < 1 / 1000000) →
      p = .bilinear) := by
  unfold InterpolatedShiftKernel.interpolate_shift at h
  dsimp only at h
  split_ifs at h <;> simp_all

/-- Witness for C6: the zero shift of a `(4,4)` complex64 array takes the
zero-copy alias path. -/
theorem interpolate_shift_dispatch_witness :
    InterpolatedShiftKernel.interpolate_shift ⟨[4, 4], Dtype.complex64⟩
        [0, 0] = .ok .aliasInput ∧
    (|fracPart 0| < 1 / 1000000 ∧ |fracPart 0| < 1 / 1000000) ∧
    (pyInt 0 = 0 ∧ pyInt 0 = 0) ∧
    ShiftPath.aliasInput = ShiftPath.aliasInput := by
  have hf : |fracPart 0| < (1 : ℚ) / 1000000 := by
    norm_num [fracPart, pyInt]
  have hi : pyInt 0 = 0 := by norm_num [pyInt]
  have h : InterpolatedShiftKernel.interpolate_shift ⟨[4, 4], Dtype.complex64⟩
      [0, 0] = .ok .aliasInput := by
    unfold InterpolatedShiftKernel.interpolate_shift
    dsimp only
    rw [if_neg (by simp), if_pos (by simp [Buffer.ndim]),
      if_pos ⟨hf, hf⟩, if_pos ⟨hi, hi⟩]
  exact ⟨h, ⟨hf, hf⟩, ⟨hi, hi⟩,
    (interpolate_shift_dispatch _ 0 0 _ h).1 ⟨hf, hf⟩ |>.1 ⟨hi, hi⟩⟩

/-- Witness for C7: `A` of trailing extents `(4,4,4)`, `B` of `(3,3,3)`,
with the axis-1 offset `10` beyond both extents. -/
theorem fill3D_no_overlap_error_witness :
    overlapLen 10 4 3 ≤ 0 ∧
    CropPadKernel.fill3D ⟨[4, 4, 4], Dtype.float32⟩ ⟨[3, 3, 3], Dtype.float32⟩
      [10, 0, 0] = Except.error "At least one dimension lacks overlap" :=
  ⟨by norm_num [overlapLen, aStart],
    fill3D_no_overlap_error [] 4 4 4 3 3 3 10 0 0 Dtype.float32 Dtype.float32
      (Or.inl (by norm_num [overlapLen, aStart]))⟩
